import Mathlib

/-!
# Verification of the Synse SDK configuration and output codec

Shallow embedding of the Synse SDK plugin code: the output scaling/conversion
codec, the reading wire encoder, configuration version parsing and comparison,
plugin configuration merging, device-config unification, and the config policy
negotiation.  Go machine floats (`float64`) are modelled exactly as IEEE-754
binary64 values carried as rationals, with an explicit round-to-nearest-even
rounding step after every arithmetic operation.
-/

/- ## Exact binary64 (Go `float64`) arithmetic model -/

/-- Fuel-driven base-2 logarithm on naturals (structural recursion so the
kernel can evaluate it): `natLog2Aux fuel n` is `⌊log₂ n⌋` when `fuel ≥ n ≥ 1`. -/
def natLog2Aux : Nat → Nat → Nat
  | 0, _ => 0
  | fuel + 1, n => if 2 ≤ n then natLog2Aux fuel (n / 2) + 1 else 0

/-- `⌊log₂ n⌋` for `n ≥ 1` (0 at 0). -/
def natLog2 (n : Nat) : Nat := natLog2Aux n n

/-- `2^e` as a rational, for a signed exponent. -/
def pow2 (e : Int) : ℚ :=
  if 0 ≤ e then ((2 : ℚ) ^ e.toNat) else 1 / ((2 : ℚ) ^ (-e).toNat)

/-- Absolute value on rationals. -/
def ratAbs (q : ℚ) : ℚ := if q < 0 then -q else q

/-- Floor of a rational as an integer. -/
def ratFloor (q : ℚ) : Int := Int.fdiv q.num q.den

/-- Round a rational to the nearest integer, ties to even. -/
def roundHalfEven (q : ℚ) : Int :=
  let n := ratFloor q
  let frac := q - (n : ℚ)
  if frac < 1 / 2 then n
  else if 1 / 2 < frac then n + 1
  else if n % 2 = 0 then n else n + 1

/-- `⌊log₂ q⌋` for a positive rational `q`. -/
def floorLog2Q (q : ℚ) : Int :=
  let e0 : Int := (natLog2 q.num.natAbs : Int) - (natLog2 q.den : Int)
  if pow2 (e0 + 1) ≤ q then e0 + 1
  else if pow2 e0 ≤ q then e0
  else e0 - 1

/-- Round a rational to the nearest IEEE-754 binary64 value (round to nearest,
ties to even), returned as the exact rational it denotes.  Subnormals are
clamped at the 2^(-1074) scale; overflow to infinity is outside the range of
every value arising in this development and is not modelled. -/
def roundD (q : ℚ) : ℚ :=
  if q = 0 then 0
  else
    let a := ratAbs q
    let e : Int := max (floorLog2Q a - 52) (-1074)
    let m : Int := roundHalfEven (a / pow2 e)
    (if q < 0 then -1 else 1) * (m : ℚ) * pow2 e

/-- binary64 multiplication: exact product, then one rounding. -/
def mulD (x y : ℚ) : ℚ := roundD (x * y)

/-- binary64 subtraction: exact difference, then one rounding. -/
def subD (x y : ℚ) : ℚ := roundD (x - y)

/-- binary64 division: exact quotient, then one rounding. -/
def divD (x y : ℚ) : ℚ := roundD (x / y)

/- ## Go string scanning primitives -/

/-- Split a character list at the leading run of ASCII digits. -/
def takeDigits : List Char → (List Char × List Char)
  | [] => ([], [])
  | c :: cs =>
    if c.isDigit then
      let (ds, rest) := takeDigits cs
      (c :: ds, rest)
    else ([], c :: cs)

/-- Decimal value of a digit list. -/
def digitsToNat (ds : List Char) : Nat :=
  ds.foldl (fun acc c => 10 * acc + (c.toNat - 48)) 0

/-- Consume an optional leading `+`/`-` sign, returning the sign as `±1`. -/
def takeSign : List Char → (Int × List Char)
  | '+' :: cs => (1, cs)
  | '-' :: cs => (-1, cs)
  | cs => (1, cs)

/-- The exact rational denoted by a Go floating-point literal
`[+-]?(d+(.d*)?|.d+)([eE][+-]?d+)?`, or `none` if the string is not of that
form.  This is the decimal-literal grammar accepted by `strconv.ParseFloat`
for the scaling-factor strings of this repository. -/
def parseGoFloat (s : String) : Option ℚ :=
  let (sgn, cs) := takeSign s.data
  let (ip, cs) := takeDigits cs
  let (fp, cs) :=
    match cs with
    | '.' :: cs1 => takeDigits cs1
    | _ => ([], cs)
  if ip.isEmpty && fp.isEmpty then none
  else
    let mant : ℚ := (digitsToNat ip : ℚ) + (digitsToNat fp : ℚ) / (10 : ℚ) ^ fp.length
    match cs with
    | [] => some ((sgn : ℚ) * mant)
    | e :: cs1 =>
      if e = 'e' ∨ e = 'E' then
        let (esgn, cs2) := takeSign cs1
        let (eds, rest) := takeDigits cs2
        if eds.isEmpty || !rest.isEmpty then none
        else
          let scale : ℚ :=
            if esgn = 1 then (10 : ℚ) ^ (digitsToNat eds) else 1 / (10 : ℚ) ^ (digitsToNat eds)
          some ((sgn : ℚ) * mant * scale)
      else none

/-- Model of Go `strconv.Atoi`: an optional sign followed by one or more ASCII
digits, whose value must fit a signed 64-bit integer; anything else errors. -/
def atoi (cs : List Char) : Option Int :=
  let (sgn, ds) := takeSign cs
  if ds.isEmpty || ds.any (fun c => !c.isDigit) then none
  else
    let v : Int := sgn * (digitsToNat ds : Int)
    if v < -9223372036854775808 ∨ 9223372036854775807 < v then none else some v

/-- Model of Go `strings.Split(s, ".")` on the character list of `s`:
split at every `'.'`, keeping empty segments. -/
def splitOnDot : List Char → List (List Char)
  | [] => [[]]
  | c :: cs =>
    let r := splitOnDot cs
    if c = '.' then [] :: r
    else
      match r with
      | [] => [[c]]
      | g :: gs => (c :: g) :: gs

/- ## Output types and the scaling/conversion codec -/

/-- The fields of `OutputType` that the reading codec consults (the remaining
fields — `Version`, `Precision`, `Unit` — never influence `Apply` or
`GetScalingFactor` and are omitted). -/
structure OutputType where
  Name : String := ""
  ScalingFactor : String := ""
  Conversion : String := ""
deriving DecidableEq

/-- A Go `interface{}` reading value: exactly the dynamic types the SDK
dispatches on, plus `other` for any dynamic type outside that taxonomy and
`nil` for the nil interface.  Machine floats are carried as the exact
rationals they denote; integers as unbounded `Int`/`Nat` (the Go values are
range-limited by their static types). -/
inductive Value where
  | str (s : String)
  | bool (b : Bool)
  | f64 (x : ℚ)
  | f32 (x : ℚ)
  | i64 (n : Int)
  | i32 (n : Int)
  | i16 (n : Int)
  | i8 (n : Int)
  | int (n : Int)
  | bytes (bs : List Nat)
  | u64 (n : Nat)
  | u32 (n : Nat)
  | u16 (n : Nat)
  | u8 (n : Nat)
  | uint (n : Nat)
  | nil
  | other (typeName : String)
deriving DecidableEq

/-- Modelled from the spec: `OutputType.GetScalingFactor` parses the
`ScalingFactor` string with `strconv.ParseFloat` (an unset factor defaults
to 1); a parse failure is an error, modelled as `none`.  The Go parse is
correctly rounded, hence the `roundD` after the exact decimal value. -/
def OutputType.GetScalingFactor (o : OutputType) : Option ℚ :=
  if o.ScalingFactor = "" then some 1
  else (parseGoFloat o.ScalingFactor).map roundD

/-- The float64 coercion used while scaling: numeric values widen to float64
(rounding where the integer exceeds 2^53); everything else — including `bool`,
per the repository's own test expecting `float64(0)` for a scaled `true` —
falls through to the zero value of the accumulator. -/
def Value.toFloat64 : Value → ℚ
  | .f64 x => x
  | .f32 x => x
  | .i64 n => roundD (n : ℚ)
  | .i32 n => roundD (n : ℚ)
  | .i16 n => roundD (n : ℚ)
  | .i8 n => roundD (n : ℚ)
  | .int n => roundD (n : ℚ)
  | .u64 n => roundD (n : ℚ)
  | .u32 n => roundD (n : ℚ)
  | .u16 n => roundD (n : ℚ)
  | .u8 n => roundD (n : ℚ)
  | .uint n => roundD (n : ℚ)
  | _ => 0

/-- Whether a value is one of the numeric dynamic types. -/
def Value.isNumeric : Value → Bool
  | .f64 _ | .f32 _ => true
  | .i64 _ | .i32 _ | .i16 _ | .i8 _ | .int _ => true
  | .u64 _ | .u32 _ | .u16 _ | .u8 _ | .uint _ => true
  | _ => false

/-- The Fahrenheit-to-Celsius conversion applied to a float64, with Go's
evaluation order `((f - 32) * 5) / 9` and one rounding per operation. -/
def englishToMetricTemperature (x : ℚ) : ℚ :=
  divD (mulD (subD x 32) 5) 9

/-- Modelled from the spec: `OutputType.Apply` (the implementation is not in
the sources here; only its test table is).  Parse the scaling factor — on
parse failure return the value unchanged; if the factor is 0 or 1 pass the
value through unchanged, preserving its type; otherwise coerce to float64,
multiply, and apply the conversion selected by the `Conversion` tag (an empty
tag applies none; an unrecognized tag yields the nil interface). -/
def OutputType.Apply (o : OutputType) (v : Value) : Value :=
  match o.GetScalingFactor with
  | none => v
  | some sf =>
    if sf = 0 ∨ sf = 1 then v
    else
      let scaled := mulD v.toFloat64 sf
      match o.Conversion with
      | "" => .f64 scaled
      | "englishToMetricTemperature" => .f64 (englishToMetricTemperature scaled)
      | _ => .nil

/- ## Encoding a reading value onto the wire -/

/-- The discriminated union of wire value variants of a `synse.V3Reading`. -/
inductive V3ReadingValue where
  | stringValue (s : String)
  | boolValue (b : Bool)
  | float64Value (x : ℚ)
  | float32Value (x : ℚ)
  | int64Value (n : Int)
  | int32Value (n : Int)
  | bytesValue (bs : List Nat)
  | uint64Value (n : Nat)
  | uint32Value (n : Nat)
deriving DecidableEq

/-- The value-dispatch switch of `Reading.Encode`: each supported dynamic type
maps to one wire variant (narrow integers widening), `nil` to no value, and
any other dynamic type to a panic (modelled as `Except.error` carrying the
panic message). -/
def encodeReadingValue : Value → Except String (Option V3ReadingValue)
  | .str t => .ok (some (.stringValue t))
  | .bool t => .ok (some (.boolValue t))
  | .f64 t => .ok (some (.float64Value t))
  | .f32 t => .ok (some (.float32Value t))
  | .i64 t => .ok (some (.int64Value t))
  | .i32 t => .ok (some (.int32Value t))
  | .i16 t => .ok (some (.int32Value t))
  | .i8 t => .ok (some (.int32Value t))
  | .int t => .ok (some (.int64Value t))
  | .bytes t => .ok (some (.bytesValue t))
  | .u64 t => .ok (some (.uint64Value t))
  | .u32 t => .ok (some (.uint32Value t))
  | .u16 t => .ok (some (.uint32Value t))
  | .u8 t => .ok (some (.uint32Value t))
  | .uint t => .ok (some (.uint64Value t))
  | .nil => .ok none
  | .other t => .error ("unsupported reading value type: " ++ t)

/- ## Configuration scheme versions -/

/-- A configuration scheme version; comparisons consult the major only. -/
structure ConfigVersion where
  Major : Int
  Minor : Int
deriving DecidableEq

/-- The `switch len(s)` body of `NewVersion`, over the dot-split components:
one component is `MAJOR`, two are `MAJOR.MINOR` (each parsed with
`strconv.Atoi`), any other number errors. -/
def newVersionOfComponents : List (List Char) → Except String ConfigVersion
  | [a] =>
    match atoi a with
    | none => .error "invalid syntax"
    | some maj => .ok { Major := maj, Minor := 0 }
  | [a, b] =>
    match atoi a with
    | none => .error "invalid syntax"
    | some maj =>
      match atoi b with
      | none => .error "invalid syntax"
      | some mn => .ok { Major := maj, Minor := mn }
  | _ => .error "too many version components - should only have MAJOR[.MINOR]"

/-- `NewVersion` parses `MAJOR` or `MAJOR.MINOR`: an empty string errors,
otherwise the string is split on every dot and the components parsed. -/
def NewVersion (versionString : String) : Except String ConfigVersion :=
  if versionString = "" then .error "no version info found"
  else newVersionOfComponents (splitOnDot versionString.data)

/-- `IsLessThan` compares majors only. -/
def ConfigVersion.IsLessThan (version other : ConfigVersion) : Bool :=
  version.Major < other.Major

/-- `IsGreaterOrEqualTo` compares majors only. -/
def ConfigVersion.IsGreaterOrEqualTo (version other : ConfigVersion) : Bool :=
  version.Major ≥ other.Major

/-- `IsEqual` compares majors only. -/
def ConfigVersion.IsEqual (version other : ConfigVersion) : Bool :=
  version.Major = other.Major

/-- Component-list well-formedness: one or two components, each accepted by
`strconv.Atoi`. -/
def versionComponentsWellFormed : List (List Char) → Bool
  | [a] => (atoi a).isSome
  | [a, b] => (atoi a).isSome && (atoi b).isSome
  | _ => false

/-- The well-formedness of a version string as the spec words it, relative to
a component predicate: nonempty, at most one dot, every component accepted by
`strconv.Atoi`. -/
def versionStringWellFormed (s : String) : Bool :=
  if s = "" then false
  else versionComponentsWellFormed (splitOnDot s.data)

/- ## Plugin configuration -/

/-- The plugin runtime configuration options. -/
structure PluginConfig where
  Name : String
  Version : String
  Debug : Bool
  WriteBufferSize : Int
  WritesPerLoop : Int
  LoopDelay : Int
  ReadBufferSize : Int
  TransactionTTL : Int
deriving DecidableEq

/-- `PluginConfig.Merge` updates the receiver with the fields of the incoming
config: `Name`/`Version` are required (an empty one errors before anything is
updated); a zero `ReadBufferSize`, `WriteBufferSize`, `WritesPerLoop` or
`TransactionTTL` means "keep the existing value"; `LoopDelay` and `Debug`
are copied unconditionally.  The Go method mutates the receiver; modelled
functionally, the updated config is returned. -/
def PluginConfig.Merge (c : PluginConfig) (config : PluginConfig) :
    Except String PluginConfig :=
  if config.Name = "" ∨ config.Version = "" then
    .error "Bad plugin configuration. Requires both a Name and Version."
  else
    .ok
      { Name := config.Name
        Version := config.Version
        ReadBufferSize :=
          if config.ReadBufferSize ≠ 0 then config.ReadBufferSize else c.ReadBufferSize
        WriteBufferSize :=
          if config.WriteBufferSize ≠ 0 then config.WriteBufferSize else c.WriteBufferSize
        WritesPerLoop :=
          if config.WritesPerLoop ≠ 0 then config.WritesPerLoop else c.WritesPerLoop
        TransactionTTL :=
          if config.TransactionTTL ≠ 0 then config.TransactionTTL else c.TransactionTTL
        LoopDelay := config.LoopDelay
        Debug := config.Debug }

/-- `GetDefaultConfig` returns the default plugin configuration (`Name` and
`Version` have no defaults and stay at Go's zero value). -/
def GetDefaultConfig : PluginConfig :=
  { Name := ""
    Version := ""
    Debug := false
    ReadBufferSize := 100
    WriteBufferSize := 100
    WritesPerLoop := 5
    LoopDelay := 0
    TransactionTTL := 60 * 5 }

/-- `ConfigurePlugin` merges the given configuration into the global `Config`
and returns nil unconditionally — a `Merge` failure is dropped.  The global
mutable `Config` is modelled by explicit state passing: the result pairs the
new global with the (always-nil) returned error. -/
def ConfigurePlugin (global config : PluginConfig) :
    PluginConfig × Option String :=
  (match global.Merge config with
   | .ok c => c
   | .error _ => global,
   none)

/- ## Device configs and unification -/

/-- Modelled from the spec: a config location (a named rack/board pair). -/
structure Location where
  Name : String
  Rack : String
  Board : String
deriving DecidableEq

/-- Modelled from the spec: a configured device instance (opaque per-protocol
data, an info string and a location reference). -/
structure DeviceInstance where
  Info : String
  Location : String
  Data : List (String × String)
deriving DecidableEq

/-- Modelled from the spec: a device kind groups instances sharing a kind
name; `HandlerName` stands for the kind fields other than `Instances`. -/
structure DeviceKind where
  Name : String
  HandlerName : String
  Instances : List DeviceInstance
deriving DecidableEq

/-- Modelled from the spec: the root of a device config tree — a scheme
version, locations and device kinds.  (`unifyDeviceConfigs` receives these
wrapped in `ConfigContext`s; the wrapper only adds a source tag and a dynamic
type check, so contexts are modelled by their configs directly.) -/
structure DeviceConfig where
  Version : String
  Locations : List Location
  Devices : List DeviceKind
deriving DecidableEq

/-- Index of the last kind with the given name, mirroring Go's `exists` map:
built by one pass over the base slice, later entries overwriting earlier
ones. -/
def lastIdxWithName (name : String) (ks : List DeviceKind) : Option Nat :=
  ks.enum.foldl (fun acc ik => if ik.2.Name = name then some ik.1 else acc) none

/-- Append instances to the kind at index `i` (the in-place pointer update
`k.Instances = append(k.Instances, kind.Instances...)`). -/
def appendInstancesAt : List DeviceKind → Nat → List DeviceInstance → List DeviceKind
  | [], _, _ => []
  | k :: ks, 0, insts => { k with Instances := k.Instances ++ insts } :: ks
  | k :: ks, n + 1, insts => k :: appendInstancesAt ks n insts

/-- `mergeDeviceKinds`: the lookup map is built from the original base slice
only; each source kind either has its instances appended onto the base kind
with the same name (no other field is compared) or, when the name is absent
from the original base, is appended to the slice. -/
def mergeDeviceKinds (base source : List DeviceKind) : List DeviceKind :=
  source.foldl
    (fun acc kind =>
      match lastIdxWithName kind.Name base with
      | none => acc ++ [kind]
      | some i => appendInstancesAt acc i kind.Instances)
    base

/-- `unifyDeviceConfigs` folds an ordered list of device configs into the
first one: locations concatenate, device kinds merge by name via
`mergeDeviceKinds`; an empty list is an error. -/
def unifyDeviceConfigs (ctxs : List DeviceConfig) : Except String DeviceConfig :=
  match ctxs with
  | [] => .error "no ConfigContexts specified for unification"
  | c :: rest =>
    .ok (rest.foldl
      (fun base source =>
        { base with
          Locations := base.Locations ++ source.Locations
          Devices := mergeDeviceKinds base.Devices source.Devices })
      c)

/- ## Config policies -/

/-- A config-source policy. -/
inductive Policy where
  | required
  | optional
  | prohibited
deriving DecidableEq

/-- The errors the config processing stages surface. -/
inductive ConfigError where
  | policyViolation (policy msg : String)
  | validationError (msg : String)
  | loadError (msg : String)
deriving DecidableEq

/-- The outcome of loading a config source: found, absent (a `ConfigsNotFound`
error), or failed with some other error. -/
inductive LoadOutcome (α : Type) where
  | ok (ctxs : α)
  | notFound
  | failed (msg : String)

/-- Modelled from the spec: `processPluginConfig`, with the file loader, the
scheme validator, the global `Config.Plugin` and the built-in default config
abstracted as parameters.  A non-not-found load error short-circuits;
the file policy then negotiates absence (Required ⇒ `PolicyViolation`,
Optional ⇒ the default config, Prohibited ⇒ the manually-set global or a
`PolicyViolation` when there is none); the surviving context is validated
and committed. -/
def processPluginConfig (policy : Policy) (load : LoadOutcome PluginConfig)
    (validateOk : PluginConfig → Bool) (globalPlugin : Option PluginConfig)
    (defaultConfig : PluginConfig) : Except ConfigError PluginConfig :=
  match load with
  | .failed msg => .error (.loadError msg)
  | _ =>
    let negotiated : Except ConfigError PluginConfig :=
      match policy, load with
      | .required, .ok ctx => .ok ctx
      | .required, _ =>
        .error (.policyViolation "PluginConfigFileRequired"
          "plugin config file required, but not found")
      | .optional, .ok ctx => .ok ctx
      | .optional, _ => .ok defaultConfig
      | .prohibited, _ =>
        match globalPlugin with
        | none =>
          .error (.policyViolation "PluginConfigFileProhibited"
            "plugin config prohibited via file and not set manually")
        | some g => .ok g
    match negotiated with
    | .error e => .error e
    | .ok ctx =>
      if validateOk ctx then .ok ctx
      else .error (.validationError "plugin config validation failed")

/-- The device-config-file policy switch of `processDeviceConfigs`: a
non-not-found load error short-circuits; absence is fatal under Required,
yields the empty context list under Optional; found contexts are dropped
under Prohibited. -/
def negotiateDeviceFilePolicy (policy : Policy)
    (load : LoadOutcome (List DeviceConfig)) :
    Except ConfigError (List DeviceConfig) :=
  match load with
  | .failed msg => .error (.loadError msg)
  | .ok ctxs =>
    match policy with
    | .required => .ok ctxs
    | .optional => .ok ctxs
    | .prohibited => .ok []
  | .notFound =>
    match policy with
    | .required =>
      .error (.policyViolation "DeviceConfigFileRequired"
        "device config file(s) required, but not found")
    | .optional => .ok []
    | .prohibited => .ok []

/-- The dynamic-registration policy switch of `processDeviceConfigs`:
registrar errors or an empty context list are fatal under Required; errors
yield the empty list under Optional; contexts are dropped under
Prohibited. -/
def negotiateDeviceDynamicPolicy (policy : Policy) (hasErrors : Bool)
    (ctxs : List DeviceConfig) : Except ConfigError (List DeviceConfig) :=
  match policy with
  | .required =>
    if hasErrors || ctxs.isEmpty then
      .error (.policyViolation "DeviceConfigDynamicRequired"
        "dynamic device config(s) required, but none found")
    else .ok ctxs
  | .optional => if hasErrors then .ok [] else .ok ctxs
  | .prohibited => .ok []

/-- The output-type-config-file policy switch of `processOutputTypeConfig`:
absence is fatal under Required and yields the empty list under Optional;
found contexts are dropped under Prohibited. -/
def negotiateTypeFilePolicy (policy : Policy)
    (load : LoadOutcome (List OutputType)) :
    Except ConfigError (List OutputType) :=
  match load with
  | .failed msg => .error (.loadError msg)
  | .ok ctxs =>
    match policy with
    | .required => .ok ctxs
    | .optional => .ok ctxs
    | .prohibited => if ctxs.isEmpty then .ok ctxs else .ok []
  | .notFound =>
    match policy with
    | .required =>
      .error (.policyViolation "TypeConfigFileRequired"
        "output type config file(s) required, but not found")
    | .optional => .ok []
    | .prohibited => .ok []

/- ## Claim theorems -/

set_option maxRecDepth 100000

/-- Claim C1: for every OutputType whose scaling factor is unset or parses to
0 or 1, and every value v, `Apply(v)` returns v unchanged — in particular the
dynamic type of the result is that of v. -/
theorem apply_identity_of_trivial_factor (o : OutputType) (v : Value)
    (h : o.ScalingFactor = "" ∨ o.GetScalingFactor = some 0 ∨
      o.GetScalingFactor = some 1) :
    o.Apply v = v := by
  have hs : o.GetScalingFactor = some 0 ∨ o.GetScalingFactor = some 1 := by
    rcases h with h | h | h
    · right; simp [OutputType.GetScalingFactor, h]
    · exact Or.inl h
    · exact Or.inr h
  unfold OutputType.Apply
  rcases hs with h | h <;> rw [h] <;> simp

/-- Claim C1 witness: factor "0" parses to 0 and `Apply` is the identity on a
boolean value there. -/
theorem apply_identity_witness :
    ({ ScalingFactor := "0" } : OutputType).GetScalingFactor = some 0 ∧
    ({ ScalingFactor := "0" } : OutputType).Apply (.bool false) = .bool false :=
  ⟨by with_unfolding_all rfl,
   apply_identity_of_trivial_factor _ _ (Or.inr (Or.inl (by with_unfolding_all rfl)))⟩

/-- Claim C2 counterexample: `NewVersion` succeeds on "-1" (a negative
component, which the claim says must error) and errors on the non-negative
decimal integer 9223372036854775808 (it exceeds `strconv.Atoi`'s signed
64-bit range, though the claim says it must succeed). -/
theorem newVersion_not_nonneg_only :
    NewVersion "-1" = .ok { Major := -1, Minor := 0 } ∧
    ((-1 : Int) < 0) ∧
    (NewVersion "9223372036854775808").isOk = false :=
  ⟨rfl, by decide, rfl⟩

/-- Claim C2 (amended): `NewVersion` succeeds exactly on `MAJOR` or
`MAJOR.MINOR` where each component is an optionally-signed decimal integer
fitting a signed 64-bit int (exactly the integers `strconv.Atoi` accepts);
an empty string, more than one dot, or any other component errors. -/
theorem newVersion_isOk_characterization (s : String) :
    (NewVersion s).isOk = versionStringWellFormed s := by
  unfold NewVersion versionStringWellFormed
  by_cases h : s = ""
  · subst h; rfl
  · simp only [if_neg h]
    rcases splitOnDot s.data with _ | ⟨a, _ | ⟨b, t⟩⟩
    · rfl
    · simp only [newVersionOfComponents, versionComponentsWellFormed]
      cases atoi a <;> rfl
    · cases t
      · simp only [newVersionOfComponents, versionComponentsWellFormed]
        cases atoi a <;> cases atoi b <;> rfl
      · rfl

/-- Claim C3: `IsEqual` holds exactly when the majors agree, whatever the
minors; in particular the versions parsed from "1.2" and "1.5" differ in
minor yet compare equal. -/
theorem isEqual_iff_major_eq :
    (∀ a b : ConfigVersion, a.IsEqual b = true ↔ a.Major = b.Major) ∧
    (∃ va vb : ConfigVersion,
      NewVersion "1.2" = .ok va ∧ NewVersion "1.5" = .ok vb ∧
      va.Minor ≠ vb.Minor ∧ va.IsEqual vb = true) := by
  constructor
  · intro a b
    simp [ConfigVersion.IsEqual]
  · exact ⟨{ Major := 1, Minor := 2 }, { Major := 1, Minor := 5 },
      rfl, rfl, by decide, by decide⟩

/-- Claim C4 counterexample: with factor "0.5", `Apply(true)` is float64 0 —
not float64 0.5 as the claim (and a bool-to-{0,1} coercion) would give. -/
theorem apply_bool_counterexample :
    ({ ScalingFactor := "0.5" } : OutputType).Apply (.bool true) = .f64 0 ∧
    ({ ScalingFactor := "0.5" } : OutputType).Apply (.bool true) ≠ .f64 (1 / 2) := by
  constructor
  · with_unfolding_all rfl
  · with_unfolding_all decide

/-- Claim C4 (amended): a boolean input is not coerced to {0.0, 1.0}; it
falls through the numeric switch leaving the float64 accumulator at 0, so
scaling a bool by any factor outside {0, 1} yields float64 0 regardless of
the bool's truth value. -/
theorem apply_bool_scales_to_zero (o : OutputType) (f : ℚ) (b : Bool)
    (hf : o.GetScalingFactor = some f) (h0 : f ≠ 0) (h1 : f ≠ 1)
    (hc : o.Conversion = "") :
    o.Apply (.bool b) = .f64 0 := by
  unfold OutputType.Apply
  rw [hf, hc]
  simp [h0, h1, Value.toFloat64, mulD, roundD]

/-- Claim C4 witness: factor "0.5" parses to 1/2 ∉ {0, 1} and scaling the
boolean false yields float64 0. -/
theorem apply_bool_scales_to_zero_witness :
    ({ ScalingFactor := "0.5" } : OutputType).GetScalingFactor = some (1 / 2) ∧
    ((1 : ℚ) / 2 ≠ 0) ∧ ((1 : ℚ) / 2 ≠ 1) ∧
    ({ ScalingFactor := "0.5" } : OutputType).Apply (.bool false) = .f64 0 :=
  ⟨by with_unfolding_all rfl, by norm_num, by norm_num,
   apply_bool_scales_to_zero { ScalingFactor := "0.5" } (1 / 2) false
     (by with_unfolding_all rfl) (by norm_num) (by norm_num) rfl⟩

/-- Claim C5: with the `englishToMetricTemperature` conversion and a factor
f ∉ {0, 1}, `Apply` on a numeric value is the float64 computation
`((v·f − 32) · 5) / 9`, each operation rounded to binary64. -/
theorem apply_englishToMetricTemperature (o : OutputType) (f : ℚ) (v : Value)
    (hf : o.GetScalingFactor = some f) (h0 : f ≠ 0) (h1 : f ≠ 1)
    (hc : o.Conversion = "englishToMetricTemperature")
    (_hv : v.isNumeric = true) :
    o.Apply v = .f64 (divD (mulD (subD (mulD v.toFloat64 f) 32) 5) 9) := by
  unfold OutputType.Apply
  rw [hf, hc]
  simp [h0, h1, englishToMetricTemperature]

/-- Claim C5 witness: factor ".1", input int16(1500) — the result is exactly
the float64 written 65.55555555555556. -/
theorem apply_englishToMetricTemperature_witness :
    ({ ScalingFactor := ".1", Conversion := "englishToMetricTemperature" } :
        OutputType).GetScalingFactor = some (roundD (1 / 10)) ∧
    roundD (1 / 10) ≠ 0 ∧ roundD (1 / 10) ≠ 1 ∧
    Value.isNumeric (.i16 1500) = true ∧
    ({ ScalingFactor := ".1", Conversion := "englishToMetricTemperature" } :
        OutputType).Apply (.i16 1500) =
      .f64 (roundD (6555555555555556 / 100000000000000)) :=
  ⟨by with_unfolding_all rfl, by with_unfolding_all decide,
   by with_unfolding_all decide, rfl,
   (apply_englishToMetricTemperature
      { ScalingFactor := ".1", Conversion := "englishToMetricTemperature" }
      (roundD (1 / 10)) (.i16 1500) (by with_unfolding_all rfl)
      (by with_unfolding_all decide) (by with_unfolding_all decide) rfl rfl).trans
     (by with_unfolding_all rfl)⟩

/-- Claim C6: the defaults are ReadBufferSize 100, WriteBufferSize 100,
WritesPerLoop 5, LoopDelay 0, TransactionTTL 300; `Merge` errors when the
incoming Name or Version is empty; otherwise each of the four buffered
fields keeps the existing value when the incoming one is zero and takes the
incoming value when it is non-zero. -/
theorem default_config_and_merge (c config : PluginConfig) :
    (GetDefaultConfig.ReadBufferSize = 100 ∧
      GetDefaultConfig.WriteBufferSize = 100 ∧
      GetDefaultConfig.WritesPerLoop = 5 ∧
      GetDefaultConfig.LoopDelay = 0 ∧
      GetDefaultConfig.TransactionTTL = 300) ∧
    (config.Name = "" ∨ config.Version = "" →
      c.Merge config =
        .error "Bad plugin configuration. Requires both a Name and Version.") ∧
    (config.Name ≠ "" → config.Version ≠ "" →
      c.Merge config = .ok
        { Name := config.Name
          Version := config.Version
          Debug := config.Debug
          LoopDelay := config.LoopDelay
          ReadBufferSize :=
            if config.ReadBufferSize ≠ 0 then config.ReadBufferSize
            else c.ReadBufferSize
          WriteBufferSize :=
            if config.WriteBufferSize ≠ 0 then config.WriteBufferSize
            else c.WriteBufferSize
          WritesPerLoop :=
            if config.WritesPerLoop ≠ 0 then config.WritesPerLoop
            else c.WritesPerLoop
          TransactionTTL :=
            if config.TransactionTTL ≠ 0 then config.TransactionTTL
            else c.TransactionTTL }) := by
  refine ⟨⟨rfl, rfl, rfl, rfl, rfl⟩, fun h => ?_, fun h1 h2 => ?_⟩
  · simp [PluginConfig.Merge, h]
  · simp [PluginConfig.Merge, h1, h2]

/-- Claim C6 witness: merging into the defaults keeps 100/5/300 for the
zero-valued fields, takes 200 for the non-zero ReadBufferSize, and an empty
Name errors. -/
theorem default_config_and_merge_witness :
    (GetDefaultConfig.Merge
       { Name := "plugin", Version := "1.0", Debug := false,
         WriteBufferSize := 0, WritesPerLoop := 0, LoopDelay := 7,
         ReadBufferSize := 200, TransactionTTL := 0 } =
      .ok { Name := "plugin", Version := "1.0", Debug := false,
            WriteBufferSize := 100, WritesPerLoop := 5, LoopDelay := 7,
            ReadBufferSize := 200, TransactionTTL := 300 }) ∧
    (GetDefaultConfig.Merge
       { Name := "", Version := "1.0", Debug := false, WriteBufferSize := 0,
         WritesPerLoop := 0, LoopDelay := 0, ReadBufferSize := 0,
         TransactionTTL := 0 } =
      .error "Bad plugin configuration. Requires both a Name and Version.") :=
  ⟨((default_config_and_merge GetDefaultConfig _).2.2 (by decide) (by decide)).trans
     rfl,
   (default_config_and_merge GetDefaultConfig _).2.1 (Or.inl rfl)⟩

/-- Claim C7 counterexample: two contexts contribute kinds named "airflow"
with different handler names; unification nevertheless succeeds — keeping
the base kind's fields and concatenating the instances — where the claim
demands a fatal validation error. -/
theorem unify_tolerates_conflicting_kinds :
    unifyDeviceConfigs
      [{ Version := "1.0", Locations := [],
         Devices := [{ Name := "airflow", HandlerName := "h1",
                       Instances := [{ Info := "a", Location := "l1", Data := [] }] }] },
       { Version := "1.0", Locations := [],
         Devices := [{ Name := "airflow", HandlerName := "h2",
                       Instances := [{ Info := "b", Location := "l2", Data := [] }] }] }] =
      .ok { Version := "1.0", Locations := [],
            Devices := [{ Name := "airflow", HandlerName := "h1",
                          Instances := [{ Info := "a", Location := "l1", Data := [] },
                                        { Info := "b", Location := "l2", Data := [] }] }] } ∧
    ("h1" : String) ≠ "h2" :=
  ⟨rfl, by decide⟩

/-- Claim C7 (amended): two contexts contributing a device kind with the same
name have their instances lists concatenated in order into a single kind;
the other kind fields are never compared — conflicts are silently tolerated
and the first (base) context's field values win. -/
theorem unify_merges_same_name_kinds (v1 v2 : String) (l1 l2 : List Location)
    (k1 k2 : DeviceKind) (h : k1.Name = k2.Name) :
    unifyDeviceConfigs
      [{ Version := v1, Locations := l1, Devices := [k1] },
       { Version := v2, Locations := l2, Devices := [k2] }] =
      .ok { Version := v1, Locations := l1 ++ l2,
            Devices := [{ k1 with Instances := k1.Instances ++ k2.Instances }] } := by
  simp [unifyDeviceConfigs, mergeDeviceKinds, lastIdxWithName, h, appendInstancesAt]

/-- Claim C7 witness: two same-name, same-field kinds unify with their
instances concatenated. -/
theorem unify_merges_same_name_kinds_witness :
    ({ Name := "temp", HandlerName := "h", Instances := [] } : DeviceKind).Name =
      ({ Name := "temp", HandlerName := "h",
         Instances := [{ Info := "x", Location := "l", Data := [] }] } : DeviceKind).Name ∧
    unifyDeviceConfigs
      [{ Version := "1", Locations := [],
         Devices := [{ Name := "temp", HandlerName := "h", Instances := [] }] },
       { Version := "1", Locations := [],
         Devices := [{ Name := "temp", HandlerName := "h",
                       Instances := [{ Info := "x", Location := "l", Data := [] }] }] }] =
      .ok { Version := "1", Locations := [],
            Devices := [{ Name := "temp", HandlerName := "h",
                          Instances := [{ Info := "x", Location := "l", Data := [] }] }] } :=
  ⟨rfl,
   (unify_merges_same_name_kinds "1" "1" [] []
      { Name := "temp", HandlerName := "h", Instances := [] }
      { Name := "temp", HandlerName := "h",
        Instances := [{ Info := "x", Location := "l", Data := [] }] }
      rfl).trans rfl⟩

/-- Claim C8: for each config source, a Required policy turns absence
(not-found) into a `PolicyViolation` error, and an Optional policy turns
absence into the empty/default context with no error (for the plugin config,
provided the substituted default validates). -/
theorem policy_required_optional_semantics :
    (∀ validateOk globalPlugin defaultConfig,
      processPluginConfig .required .notFound validateOk globalPlugin defaultConfig =
        .error (.policyViolation "PluginConfigFileRequired"
          "plugin config file required, but not found")) ∧
    (∀ validateOk globalPlugin defaultConfig,
      validateOk defaultConfig = true →
      processPluginConfig .optional .notFound validateOk globalPlugin defaultConfig =
        .ok defaultConfig) ∧
    (negotiateDeviceFilePolicy .required .notFound =
      .error (.policyViolation "DeviceConfigFileRequired"
        "device config file(s) required, but not found")) ∧
    (negotiateDeviceFilePolicy .optional .notFound = .ok []) ∧
    (∀ hasErrors ctxs, hasErrors = true ∨ ctxs = [] →
      negotiateDeviceDynamicPolicy .required hasErrors ctxs =
        .error (.policyViolation "DeviceConfigDynamicRequired"
          "dynamic device config(s) required, but none found")) ∧
    (∀ ctxs, negotiateDeviceDynamicPolicy .optional true ctxs = .ok []) ∧
    (negotiateTypeFilePolicy .required .notFound =
      .error (.policyViolation "TypeConfigFileRequired"
        "output type config file(s) required, but not found")) ∧
    (negotiateTypeFilePolicy .optional .notFound = .ok []) := by
  refine ⟨fun _ _ _ => rfl, fun v g d h => ?_, rfl, rfl, fun he cs h => ?_,
    fun _ => rfl, rfl, rfl⟩
  · simp [processPluginConfig, h]
  · rcases h with h | h <;> simp [negotiateDeviceDynamicPolicy, h]

/-- Claim C8 witness: an always-passing validator lets the Optional plugin
policy substitute the default config with no error, and the Required dynamic
policy errors on an empty context list. -/
theorem policy_required_optional_witness :
    ((fun _ : PluginConfig => true) GetDefaultConfig = true) ∧
    processPluginConfig .optional .notFound (fun _ => true) none GetDefaultConfig =
      .ok GetDefaultConfig ∧
    negotiateDeviceDynamicPolicy .required false [] =
      .error (.policyViolation "DeviceConfigDynamicRequired"
        "dynamic device config(s) required, but none found") :=
  ⟨rfl,
   policy_required_optional_semantics.2.1 _ none GetDefaultConfig rfl,
   policy_required_optional_semantics.2.2.2.2.1 false [] (Or.inr rfl)⟩

/-- Claim C9: `Reading.Encode` maps each supported dynamic value type to
exactly one wire variant, widening the narrow integers (int8/int16 →
Int32Value, uint8/uint16 → Uint32Value, int → Int64Value, uint →
Uint64Value), `nil` to no value, and panics on any other dynamic type. -/
theorem encode_value_taxonomy :
    (∀ s, encodeReadingValue (.str s) = .ok (some (.stringValue s))) ∧
    (∀ b, encodeReadingValue (.bool b) = .ok (some (.boolValue b))) ∧
    (∀ x, encodeReadingValue (.f64 x) = .ok (some (.float64Value x))) ∧
    (∀ x, encodeReadingValue (.f32 x) = .ok (some (.float32Value x))) ∧
    (∀ n, encodeReadingValue (.i8 n) = .ok (some (.int32Value n)) ∧
      encodeReadingValue (.i16 n) = .ok (some (.int32Value n)) ∧
      encodeReadingValue (.i32 n) = .ok (some (.int32Value n))) ∧
    (∀ n, encodeReadingValue (.int n) = .ok (some (.int64Value n)) ∧
      encodeReadingValue (.i64 n) = .ok (some (.int64Value n))) ∧
    (∀ n, encodeReadingValue (.u8 n) = .ok (some (.uint32Value n)) ∧
      encodeReadingValue (.u16 n) = .ok (some (.uint32Value n)) ∧
      encodeReadingValue (.u32 n) = .ok (some (.uint32Value n))) ∧
    (∀ n, encodeReadingValue (.uint n) = .ok (some (.uint64Value n)) ∧
      encodeReadingValue (.u64 n) = .ok (some (.uint64Value n))) ∧
    (∀ bs, encodeReadingValue (.bytes bs) = .ok (some (.bytesValue bs))) ∧
    (encodeReadingValue .nil = .ok none) ∧
    (∀ t, encodeReadingValue (.other t) =
      .error ("unsupported reading value type: " ++ t)) := by
  refine ⟨fun _ => rfl, fun _ => rfl, fun _ => rfl, fun _ => rfl,
    fun _ => ⟨rfl, rfl, rfl⟩, fun _ => ⟨rfl, rfl⟩, fun _ => ⟨rfl, rfl, rfl⟩,
    fun _ => ⟨rfl, rfl⟩, fun _ => rfl, rfl, fun _ => rfl⟩

/-- Claim C10: `ConfigurePlugin` always returns nil, and when the incoming
config has an empty Name or Version the failed `Merge` leaves the global
config entirely unchanged. -/
theorem configurePlugin_swallows_merge_error (global config : PluginConfig) :
    (ConfigurePlugin global config).2 = none ∧
    (config.Name = "" ∨ config.Version = "" →
      (ConfigurePlugin global config).1 = global) := by
  refine ⟨rfl, fun h => ?_⟩
  simp [ConfigurePlugin, PluginConfig.Merge, h]

/-- Claim C10 witness: configuring with an invalid (nameless) config returns
nil and leaves the default global config untouched. -/
theorem configurePlugin_witness :
    (ConfigurePlugin GetDefaultConfig
        { Name := "", Version := "", Debug := true, WriteBufferSize := 9,
          WritesPerLoop := 9, LoopDelay := 9, ReadBufferSize := 9,
          TransactionTTL := 9 }).2 = none ∧
    (ConfigurePlugin GetDefaultConfig
        { Name := "", Version := "", Debug := true, WriteBufferSize := 9,
          WritesPerLoop := 9, LoopDelay := 9, ReadBufferSize := 9,
          TransactionTTL := 9 }).1 = GetDefaultConfig :=
  ⟨(configurePlugin_swallows_merge_error _ _).1,
   (configurePlugin_swallows_merge_error _ _).2 (Or.inl rfl)⟩
